import Mathlib

/-!
Shallow embedding of the Streamlit price-optimization dashboard
(src/app.py) and proofs about its batch-scoring, single-prediction,
export and visual-analytics paths.

The app's data lives in pandas dataframes; we model a dataframe as a
header (list of column names) together with rows of optional cells
(`none` is a missing value / NaN).  HTTP is modelled by a client
function that either raises a network exception (connection error or
timeout, as `requests.post` may) or returns a response carrying the
status code, the raw body text and the two JSON fields the app reads.
-/

deriving instance DecidableEq for Except

namespace PriceOpt

/-- A scalar value as it appears in a spreadsheet cell or a JSON payload. -/
inductive Cell where
  | num (q : ℚ)
  | str (s : String)
  | boolean (b : Bool)
  deriving DecidableEq, Repr

/-- A pandas dataframe: column names plus rows of optional cells
(`none` models NaN / missing). -/
structure DataFrame where
  header : List String
  rows : List (List (Option Cell))
  deriving DecidableEq, Repr

/-- The JSON body of one `requests.post` call: keys paired with values,
as produced by `row.to_dict()` or by the single-prediction dict literal. -/
abbrev Payload := List (String × Option Cell)

/-- In the batch path the payload is `row.to_dict()`: the row's values
keyed by the dataframe's column names (src/app.py line 81). -/
def payloadOf (header : List String) (row : List (Option Cell)) : Payload :=
  header.zip row

/-- An HTTP response as the app reads it: the status code, the raw body
text (`resp.text`) and the two JSON fields of a successful body. -/
structure Response where
  status_code : Nat
  text : String
  will_buy_after_price_increase : Bool
  probability : ℚ
  deriving DecidableEq, Repr

/-- `resp.ok` of the requests library: true exactly when the status code
is below 400. -/
def Response.ok (r : Response) : Bool := r.status_code < 400

/-- An exception raised by `requests.post` itself: connection failure or
timeout.  The app never catches these. -/
inductive NetworkError where
  | connectionError
  | timeout
  deriving DecidableEq, Repr

/-- The prediction endpoint as seen from the app: one call per payload,
returning a response or raising a network exception. -/
abbrev Client := Payload → Except NetworkError Response

/-- What the batch loop appends for one response (src/app.py lines 83-89):
on `resp.ok` the parsed prediction and probability, otherwise `None, None`. -/
def pairOf (resp : Response) : Option Bool × Option ℚ :=
  if resp.ok then (some resp.will_buy_after_price_increase, some resp.probability)
  else (none, none)

/-- The batch prediction loop (src/app.py lines 78-89): one
`requests.post` per row in order; a non-ok response appends absent
values and the loop continues; an exception from `requests.post` is
uncaught and aborts the whole loop. -/
def scoreRows (client : Client) (header : List String) :
    List (List (Option Cell)) → Except NetworkError (List (Option Bool × Option ℚ))
  | [] => Except.ok []
  | row :: rest =>
    match client (payloadOf header row) with
    | Except.error e => Except.error e
    | Except.ok resp =>
      match scoreRows client header rest with
      | Except.error e => Except.error e
      | Except.ok tail => Except.ok (pairOf resp :: tail)

/-- Number of `requests.post` calls the batch loop performs: one per row
until (and including) the first call that raises. -/
def networkCallCount (client : Client) (header : List String) :
    List (List (Option Cell)) → Nat
  | [] => 0
  | row :: rest =>
    match client (payloadOf header row) with
    | Except.error _ => 1
    | Except.ok _ => 1 + networkCallCount client header rest

/-- The whole batch path (src/app.py lines 78-92): scores every row,
then appends the `Prediction` and `Probability` columns to the
dataframe.  An uncaught network exception aborts with no table. -/
def batchRun (client : Client) (df : DataFrame) : Except NetworkError DataFrame :=
  match scoreRows client df.header df.rows with
  | Except.error e => Except.error e
  | Except.ok results =>
    Except.ok
      { header := df.header ++ ["Prediction", "Probability"]
        rows := (df.rows.zip results).map fun pr =>
          pr.1 ++ [pr.2.1.map Cell.boolean, pr.2.2.map Cell.num] }

/-- The nine input columns the endpoint contract names (spec §6); the
single-prediction payload uses exactly these keys (src/app.py 42-52). -/
def requiredColumns : List String :=
  ["total_spent", "avg_order_value", "avg_purchase_frequency",
   "days_since_last_purchase", "discount_behavior", "loyalty_program_member",
   "days_in_advance", "flight_type", "cabin_class"]

/-- Whether an uploaded dataframe has all nine required columns. -/
def hasRequiredColumns (df : DataFrame) : Bool :=
  requiredColumns.all fun c => df.header.contains c

/-! ## Single-customer prediction path (src/app.py lines 28-63) -/

/-- The values of the nine single-prediction form widgets. -/
structure SingleInputs where
  total_spent : ℚ
  avg_order_value : ℚ
  avg_purchase_frequency : ℚ
  days_since_last_purchase : ℤ
  discount_behavior : ℚ
  loyalty_program_member : Nat
  days_in_advance : ℤ
  flight_type : String
  cabin_class : String
  deriving DecidableEq, Repr

/-- A rejected form value: the widget names the out-of-range field and
refuses to take the value (it is neither clamped nor submitted). -/
inductive ValidationError where
  | outOfRange (field : String)
  deriving DecidableEq, Repr

/-- The bounds the single-prediction form imposes (src/app.py lines
31-39): every `st.number_input` has `min_value = 0`, `discount_behavior`
additionally has `max_value = 1.0`, and the three selectboxes only offer
their listed options.  The widget framework rejects a value outside its
bounds, which we surface as a `ValidationError`. -/
def validateSingleInputs (s : SingleInputs) : Except ValidationError SingleInputs :=
  if s.total_spent < 0 then Except.error (ValidationError.outOfRange "total_spent")
  else if s.avg_order_value < 0 then Except.error (ValidationError.outOfRange "avg_order_value")
  else if s.avg_purchase_frequency < 0 then
    Except.error (ValidationError.outOfRange "avg_purchase_frequency")
  else if s.days_since_last_purchase < 0 then
    Except.error (ValidationError.outOfRange "days_since_last_purchase")
  else if s.discount_behavior < 0 ∨ 1 < s.discount_behavior then
    Except.error (ValidationError.outOfRange "discount_behavior")
  else if ¬ (s.loyalty_program_member = 0 ∨ s.loyalty_program_member = 1) then
    Except.error (ValidationError.outOfRange "loyalty_program_member")
  else if s.days_in_advance < 0 then Except.error (ValidationError.outOfRange "days_in_advance")
  else if ¬ (s.flight_type = "domestic" ∨ s.flight_type = "international") then
    Except.error (ValidationError.outOfRange "flight_type")
  else if ¬ (s.cabin_class = "economy" ∨ s.cabin_class = "business") then
    Except.error (ValidationError.outOfRange "cabin_class")
  else Except.ok s

/-- The single-prediction payload (src/app.py lines 42-52): a dict
literal with exactly the nine keys. -/
def singlePayload (s : SingleInputs) : Payload :=
  [("total_spent", some (Cell.num s.total_spent)),
   ("avg_order_value", some (Cell.num s.avg_order_value)),
   ("avg_purchase_frequency", some (Cell.num s.avg_purchase_frequency)),
   ("days_since_last_purchase", some (Cell.num s.days_since_last_purchase)),
   ("discount_behavior", some (Cell.num s.discount_behavior)),
   ("loyalty_program_member", some (Cell.num s.loyalty_program_member)),
   ("days_in_advance", some (Cell.num s.days_in_advance)),
   ("flight_type", some (Cell.str s.flight_type)),
   ("cabin_class", some (Cell.str s.cabin_class))]

/-- What the single-prediction page renders for one response. -/
inductive SingleOutcome where
  | success (will_continue : Bool) (probability : ℚ)
  | apiError (status : Nat) (body : String)
  deriving DecidableEq, Repr

/-- Response handling of the single-prediction page (src/app.py lines
57-63): the parsed prediction when `resp.status_code == 200`, otherwise
an error message carrying the status and the raw body text. -/
def handleSingleResponse (resp : Response) : SingleOutcome :=
  if resp.status_code = 200 then
    SingleOutcome.success resp.will_buy_after_price_increase resp.probability
  else
    SingleOutcome.apiError resp.status_code resp.text

/-- Whether a status code is a 2xx success status. -/
def is2xx (n : Nat) : Bool := 200 ≤ n && n < 300

/-! ## Visual analytics path (src/app.py lines 112-136) -/

/-- Numeric view of a cell, as pandas aggregations see it: numbers are
themselves, booleans coerce to 1 and 0, text is non-numeric. -/
def Cell.toRat? : Cell → Option ℚ
  | Cell.num q => some q
  | Cell.boolean b => some (if b then 1 else 0)
  | Cell.str _ => none

/-- The cells of one named column, in row order (`df[name]`); rows
shorter than the header read as missing. -/
def columnCells (df : DataFrame) (name : String) : List (Option Cell) :=
  match df.header.indexOf? name with
  | none => df.rows.map fun _ => none
  | some i => df.rows.map fun row => (row.get? i).join

/-- The non-missing numeric values of a column, in row order: what a
skipna pandas aggregation works over. -/
def numericValues (cells : List (Option Cell)) : List ℚ :=
  cells.filterMap fun c => c.bind Cell.toRat?

/-- `Series.mean()`: the mean of the non-missing numeric values, or NaN
(modelled as `none`) when there are none. -/
def seriesMean (cells : List (Option Cell)) : Option ℚ :=
  if (numericValues cells).length = 0 then none
  else some ((numericValues cells).sum / (numericValues cells).length)

/-- The aggregates the visual-analytics page computes. -/
structure Summary where
  continue_share : Option ℚ
  continueCount : Nat
  stopCount : Nat
  deriving DecidableEq, Repr

/-- The visual-analytics page rejects a file without the two derived
columns (src/app.py line 136). -/
inductive SchemaError where
  | missingColumns
  deriving DecidableEq, Repr

/-- The visual-analytics aggregation (src/app.py lines 117-134): if both
`Prediction` and `Probability` columns are present, the share continuing
is `df["Prediction"].mean()` and the segment counts are
`value_counts()` at the keys renamed `Continue` (1) and `Stop` (0);
otherwise the page errors and renders no aggregate. -/
def summarize (df : DataFrame) : Except SchemaError Summary :=
  if df.header.contains "Prediction" && df.header.contains "Probability" then
    Except.ok
      { continue_share := seriesMean (columnCells df "Prediction")
        continueCount := (numericValues (columnCells df "Prediction")).count 1
        stopCount := (numericValues (columnCells df "Prediction")).count 0 }
  else Except.error SchemaError.missingColumns

/-- The page shows the share as a percentage
(`df["Prediction"].mean() * 100`, src/app.py line 122). -/
def displayedPct (s : Summary) : Option ℚ := s.continue_share.map fun q => q * 100

/-! ## Export / re-upload round trip (src/app.py lines 98-107) -/

/-- One cell of the written spreadsheet: an absent value becomes an
empty cell, a present value keeps its kind.  The Excel codec
(`df.to_excel(index=False)` / `pd.read_excel`) is modelled as this
lossless cell grid, per the spec's black-box boundary for spreadsheet
internals. -/
inductive ExcelCell where
  | blank
  | number (q : ℚ)
  | text (s : String)
  | truth (b : Bool)
  deriving DecidableEq, Repr

/-- Writing one table cell into the spreadsheet. -/
def cellToExcel : Option Cell → ExcelCell
  | none => ExcelCell.blank
  | some (Cell.num q) => ExcelCell.number q
  | some (Cell.str s) => ExcelCell.text s
  | some (Cell.boolean b) => ExcelCell.truth b

/-- Reading one spreadsheet cell back into a table cell. -/
def cellFromExcel : ExcelCell → Option Cell
  | ExcelCell.blank => none
  | ExcelCell.number q => some (Cell.num q)
  | ExcelCell.text s => some (Cell.str s)
  | ExcelCell.truth b => some (Cell.boolean b)

/-- `df.to_excel(writer, index=False)`: one header row of the column
names followed by the data rows, no index column. -/
def exportTable (df : DataFrame) : List (List ExcelCell) :=
  (df.header.map ExcelCell.text) :: df.rows.map fun r => r.map cellToExcel

/-- `pd.read_excel`: the first row as headers, the rest as data rows. -/
def parseTable (grid : List (List ExcelCell)) : DataFrame :=
  match grid with
  | [] => { header := [], rows := [] }
  | h :: rs =>
    { header := h.map fun c => match c with | ExcelCell.text s => s | _ => ""
      rows := rs.map fun r => r.map cellFromExcel }

/-! ## Specification helpers -/

/-- Per-row denotation of the batch loop for a call that returns a
response: the pair the loop appends for that row. -/
def rowScore (client : Client) (header : List String) (row : List (Option Cell)) :
    Option Bool × Option ℚ :=
  match client (payloadOf header row) with
  | Except.ok resp => pairOf resp
  | Except.error _ => (none, none)

/-- Whether the call for a row returns a response at all (as opposed to
raising a network exception). -/
def callReturns (client : Client) (header : List String) (row : List (Option Cell)) : Bool :=
  match client (payloadOf header row) with
  | Except.ok _ => true
  | Except.error _ => false

/-- Appending one more row to an uploaded table. -/
def appendRow (df : DataFrame) (row : List (Option Cell)) : DataFrame :=
  { header := df.header, rows := df.rows ++ [row] }

/-! ## Concrete fixtures for counterexamples and witnesses -/

/-- A successful endpoint response. -/
def okResponse : Response :=
  { status_code := 200, text := "", will_buy_after_price_increase := true,
    probability := 4 / 5 }

/-- A non-success endpoint response (HTTP 500). -/
def errResponse : Response :=
  { status_code := 500, text := "internal error", will_buy_after_price_increase := false,
    probability := 0 }

/-- A 201 Created response: a 2xx status other than 200. -/
def resp201 : Response :=
  { status_code := 201, text := "created", will_buy_after_price_increase := true,
    probability := 1 / 2 }

/-- A 301 redirect response: a non-2xx status below 400. -/
def resp301 : Response :=
  { status_code := 301, text := "moved", will_buy_after_price_increase := false,
    probability := 0 }

/-- One well-formed input row over the nine required columns, tagged by
its `total_spent` value. -/
def sampleRow (t : ℚ) : List (Option Cell) :=
  [some (Cell.num t), some (Cell.num 120), some (Cell.num 2), some (Cell.num 30),
   some (Cell.num (1 / 5)), some (Cell.num 1), some (Cell.num 14),
   some (Cell.str "domestic"), some (Cell.str "economy")]

/-- A two-row upload with all nine required columns. -/
def twoRowDf : DataFrame :=
  { header := requiredColumns, rows := [sampleRow 1, sampleRow 2] }

/-- A client whose call for the row with `total_spent = 1` raises a
timeout and whose other calls succeed. -/
def timeoutOnFirstClient : Client := fun p =>
  if p.lookup "total_spent" = some (some (Cell.num 1)) then Except.error NetworkError.timeout
  else Except.ok okResponse

/-- A client whose call for the row with `total_spent = 1` returns
HTTP 500 and whose other calls succeed: one ServiceError among the
batch, no network exception. -/
def failOnFirstClient : Client := fun p =>
  if p.lookup "total_spent" = some (some (Cell.num 1)) then Except.ok errResponse
  else Except.ok okResponse

/-- A stub client that answers every call with the same 200 response. -/
def stubOkClient : Client := fun _ => Except.ok okResponse

/-- The scored table `batchRun` produces for `twoRowDf` under
`stubOkClient`. -/
def scoredTwoRowDf : DataFrame :=
  { header := requiredColumns ++ ["Prediction", "Probability"]
    rows := [sampleRow 1 ++ [some (Cell.boolean true), some (Cell.num (4 / 5))],
             sampleRow 2 ++ [some (Cell.boolean true), some (Cell.num (4 / 5))]] }

/-- An upload with only eight of the nine required columns
(`cabin_class` is missing). -/
def eightColumnDf : DataFrame :=
  { header := ["total_spent", "avg_order_value", "avg_purchase_frequency",
               "days_since_last_purchase", "discount_behavior", "loyalty_program_member",
               "days_in_advance", "flight_type"]
    rows := [[some (Cell.num 1), some (Cell.num 120), some (Cell.num 2), some (Cell.num 30),
              some (Cell.num (1 / 5)), some (Cell.num 1), some (Cell.num 14),
              some (Cell.str "domestic")],
             [some (Cell.num 2), some (Cell.num 80), some (Cell.num 1), some (Cell.num 7),
              some (Cell.num 0), some (Cell.num 0), some (Cell.num 3),
              some (Cell.str "international")]] }

/-- An upload with the nine required columns plus an extra tenth one. -/
def tenColumnHeader : List String := requiredColumns ++ ["extra_note"]

/-- One row of the ten-column upload. -/
def tenColumnRow : List (Option Cell) := sampleRow 1 ++ [some (Cell.str "vip")]

/-- A scored table whose `Prediction` column is `[1, 1, 0, 1]`. -/
def analyticsDf : DataFrame :=
  { header := ["Prediction", "Probability"]
    rows := [[some (Cell.num 1), some (Cell.num (9 / 10))],
             [some (Cell.num 1), some (Cell.num (7 / 10))],
             [some (Cell.num 0), some (Cell.num (2 / 10))],
             [some (Cell.num 1), some (Cell.num (8 / 10))]] }

/-- A scored table with one absent prediction among `[1, none, 0]`. -/
def analyticsAbsentDf : DataFrame :=
  { header := ["Prediction", "Probability"]
    rows := [[some (Cell.num 1), some (Cell.num (9 / 10))],
             [none, none],
             [some (Cell.num 0), some (Cell.num (2 / 10))]] }

/-- The form's default values (src/app.py lines 31-39). -/
def defaultInputs : SingleInputs :=
  { total_spent := 0, avg_order_value := 0, avg_purchase_frequency := 0,
    days_since_last_purchase := 30, discount_behavior := 1 / 5,
    loyalty_program_member := 0, days_in_advance := 14,
    flight_type := "domestic", cabin_class := "economy" }

/-- The default form values with `discount_behavior` replaced. -/
def withDiscount (d : ℚ) : SingleInputs :=
  { defaultInputs with discount_behavior := d }

/-- The default form values with `total_spent` replaced. -/
def withTotalSpent (t : ℚ) : SingleInputs :=
  { defaultInputs with total_spent := t }

/-! ## Lemmas about the batch loop -/

/-- The loop's appended pair is absent exactly for a non-ok response. -/
theorem pairOf_fst_none (resp : Response) : (pairOf resp).1 = none ↔ resp.ok = false := by
  unfold pairOf
  cases h : resp.ok <;> simp [h]

/-- When every call returns a response, the batch loop completes and its
result is the per-row denotation, row by row. -/
theorem scoreRows_eq_map (client : Client) (header : List String)
    (rows : List (List (Option Cell)))
    (h : ∀ row ∈ rows, callReturns client header row = true) :
    scoreRows client header rows = Except.ok (rows.map (rowScore client header)) := by
  induction rows with
  | nil => rfl
  | cons r rs ih =>
    have hr : callReturns client header r = true := h r (by simp)
    have hrs := ih fun row hrow => h row (by simp [hrow])
    unfold callReturns at hr
    cases hc : client (payloadOf header r) with
    | error e => rw [hc] at hr; simp at hr
    | ok resp => simp [scoreRows, rowScore, hc, hrs]

/-- A completed batch loop yields one result per input row: the lengths
match and the result at each index comes from the response for the row
at that index. -/
theorem scoreRows_ok_spec (client : Client) (header : List String) :
    ∀ rows results, scoreRows client header rows = Except.ok results →
      results.length = rows.length ∧
      ∀ i, i < rows.length → ∃ row resp,
        rows.get? i = some row ∧
        client (payloadOf header row) = Except.ok resp ∧
        results.get? i = some (pairOf resp) := by
  intro rows
  induction rows with
  | nil =>
    intro results h
    simp only [scoreRows, Except.ok.injEq] at h
    subst h
    exact ⟨rfl, fun i hi => absurd hi (by simp)⟩
  | cons r rs ih =>
    intro results h
    simp only [scoreRows] at h
    cases hc : client (payloadOf header r) with
    | error e => rw [hc] at h; cases h
    | ok resp =>
      rw [hc] at h
      cases hs : scoreRows client header rs with
      | error e => rw [hs] at h; cases h
      | ok tail =>
        rw [hs] at h
        simp only [Except.ok.injEq] at h
        subst h
        obtain ⟨hlen, hget⟩ := ih tail hs
        refine ⟨by simp [hlen], ?_⟩
        intro i hi
        cases i with
        | zero => exact ⟨r, resp, rfl, hc, rfl⟩
        | succ n =>
          obtain ⟨row, resp2, h1, h2, h3⟩ := hget n (Nat.lt_of_succ_lt_succ hi)
          exact ⟨row, resp2, h1, h2, h3⟩

/-- When every call returns a response, the loop performs exactly one
network call per input row. -/
theorem networkCallCount_eq_length (client : Client) (header : List String)
    (rows : List (List (Option Cell)))
    (h : ∀ row ∈ rows, callReturns client header row = true) :
    networkCallCount client header rows = rows.length := by
  induction rows with
  | nil => rfl
  | cons r rs ih =>
    have hr : callReturns client header r = true := h r (by simp)
    unfold callReturns at hr
    cases hc : client (payloadOf header r) with
    | error e => rw [hc] at hr; simp at hr
    | ok resp =>
      have := ih fun row hrow => h row (by simp [hrow])
      simp [networkCallCount, hc, this, Nat.add_comm]

/-! ## Claims -/

/-- C1 (amended): partial-failure tolerance holds for ServiceError
failures only.  When every per-record call returns an HTTP response —
so every failure is a non-success status, not a network exception — the
batch loop completes with one result per input row, in input order, the
result at index i derived from the response for row i, and a result
absent exactly when that row's response was not ok.  The claim as
frozen, which also covers NetworkError, is refuted by
`C1_network_error_aborts_batch`. -/
theorem C1_batch_tolerates_service_errors (client : Client) (df : DataFrame)
    (h : ∀ row ∈ df.rows, callReturns client df.header row = true) :
    ∃ results, scoreRows client df.header df.rows = Except.ok results ∧
      results.length = df.rows.length ∧
      ∀ i, i < df.rows.length → ∃ row resp,
        df.rows.get? i = some row ∧
        client (payloadOf df.header row) = Except.ok resp ∧
        results.get? i = some (pairOf resp) ∧
        ((pairOf resp).1 = none ↔ resp.ok = false) := by
  have hmap := scoreRows_eq_map client df.header df.rows h
  obtain ⟨hlen, hget⟩ := scoreRows_ok_spec client df.header df.rows _ hmap
  refine ⟨_, hmap, hlen, fun i hi => ?_⟩
  obtain ⟨row, resp, h1, h2, h3⟩ := hget i hi
  exact ⟨row, resp, h1, h2, h3, pairOf_fst_none resp⟩

/-- C1 witness: a two-row batch whose first record draws an HTTP 500
(a ServiceError) still completes with two results. -/
theorem C1_service_error_witness :
    (∀ row ∈ twoRowDf.rows, callReturns failOnFirstClient twoRowDf.header row = true) ∧
    ∃ results, scoreRows failOnFirstClient twoRowDf.header twoRowDf.rows = Except.ok results ∧
      results.length = twoRowDf.rows.length ∧
      ∀ i, i < twoRowDf.rows.length → ∃ row resp,
        twoRowDf.rows.get? i = some row ∧
        failOnFirstClient (payloadOf twoRowDf.header row) = Except.ok resp ∧
        results.get? i = some (pairOf resp) ∧
        ((pairOf resp).1 = none ↔ resp.ok = false) :=
  ⟨by decide, C1_batch_tolerates_service_errors failOnFirstClient twoRowDf (by decide)⟩

/-- C1 counterexample: in a two-record batch where exactly one call
fails, by timeout, the loop aborts with the uncaught exception after a
single network call — no two-row scored table is produced, so a single
record's NetworkError does abort the batch. -/
theorem C1_network_error_aborts_batch :
    twoRowDf.rows.length = 2 ∧
    networkCallCount timeoutOnFirstClient twoRowDf.header twoRowDf.rows = 1 ∧
    batchRun timeoutOnFirstClient twoRowDf = Except.error NetworkError.timeout := by
  exact ⟨rfl, by decide, rfl⟩

/-- C2: whenever the batch path produces a scored table, it has exactly
one output row per input row, in input order: row i of the output is
row i of the input followed by the Prediction and Probability cells
derived from the response for input row i. -/
theorem C2_scored_table_aligned_with_input (client : Client) (df scored : DataFrame)
    (h : batchRun client df = Except.ok scored) :
    scored.rows.length = df.rows.length ∧
    ∀ i, i < df.rows.length → ∃ row resp,
      df.rows.get? i = some row ∧
      client (payloadOf df.header row) = Except.ok resp ∧
      scored.rows.get? i =
        some (row ++ [(pairOf resp).1.map Cell.boolean, (pairOf resp).2.map Cell.num]) := by
  unfold batchRun at h
  cases hs : scoreRows client df.header df.rows with
  | error e => rw [hs] at h; cases h
  | ok results =>
    rw [hs] at h
    simp only [Except.ok.injEq] at h
    subst h
    obtain ⟨hlen, hget⟩ := scoreRows_ok_spec client df.header df.rows results hs
    constructor
    · simp [List.length_zip, hlen]
    · intro i hi
      obtain ⟨row, resp, h1, h2, h3⟩ := hget i hi
      refine ⟨row, resp, h1, h2, ?_⟩
      have hzip : (df.rows.zip results).get? i = some (row, pairOf resp) :=
        (List.get?_zip_eq_some _ _ _ _).mpr ⟨h1, h3⟩
      show (List.map _ (df.rows.zip results)).get? i = _
      rw [List.get?_map, hzip]
      rfl

/-- C2 witness: a two-row upload scored by a stub 200 client yields the
concrete two-row scored table, aligned row by row. -/
theorem C2_scored_table_witness :
    scoredTwoRowDf.rows.length = twoRowDf.rows.length ∧
    ∀ i, i < twoRowDf.rows.length → ∃ row resp,
      twoRowDf.rows.get? i = some row ∧
      stubOkClient (payloadOf twoRowDf.header row) = Except.ok resp ∧
      scoredTwoRowDf.rows.get? i =
        some (row ++ [(pairOf resp).1.map Cell.boolean, (pairOf resp).2.map Cell.num]) :=
  C2_scored_table_aligned_with_input stubOkClient twoRowDf scoredTwoRowDf rfl

/-- C3 (amended): the batch path performs no required-column check and
defines no FormatError: even for an upload missing required columns,
nothing is rejected up front — when no call raises, the loop makes
exactly one network call per row and scoring completes. -/
theorem C3_no_column_check (client : Client) (df : DataFrame)
    (hmiss : hasRequiredColumns df = false)
    (h : ∀ row ∈ df.rows, callReturns client df.header row = true) :
    networkCallCount client df.header df.rows = df.rows.length ∧
    ∃ scored, batchRun client df = Except.ok scored := by
  refine ⟨networkCallCount_eq_length client df.header df.rows h, ?_⟩
  unfold batchRun
  rw [scoreRows_eq_map client df.header df.rows h]
  exact ⟨_, rfl⟩

/-- C3 witness: an upload with eight of the nine required columns is
still scored — two rows, two network calls, a completed batch. -/
theorem C3_no_column_check_witness :
    hasRequiredColumns eightColumnDf = false ∧
    (networkCallCount stubOkClient eightColumnDf.header eightColumnDf.rows =
        eightColumnDf.rows.length ∧
      ∃ scored, batchRun stubOkClient eightColumnDf = Except.ok scored) :=
  ⟨by decide, C3_no_column_check stubOkClient eightColumnDf (by decide) (by decide)⟩

/-- C3 counterexample: an upload missing `cabin_class` is not rejected
with a FormatError before any network call — the batch path makes two
network calls (one per row) and completes with a scored table. -/
theorem C3_missing_column_still_scored :
    hasRequiredColumns eightColumnDf = false ∧
    networkCallCount stubOkClient eightColumnDf.header eightColumnDf.rows = 2 ∧
    ∃ scored, batchRun stubOkClient eightColumnDf = Except.ok scored := by
  exact ⟨by decide, by decide, ⟨_, rfl⟩⟩

/-- C4 (amended): the two paths use different success criteria.  The
single-prediction page treats a response as success exactly when the
status code equals 200, and on any other status renders an error
carrying the status and the raw body text; the batch loop records a
present result exactly when the status code is below 400 (`resp.ok`). -/
theorem C4_success_criteria_differ (resp : Response) :
    (handleSingleResponse resp =
        SingleOutcome.success resp.will_buy_after_price_increase resp.probability ↔
      resp.status_code = 200) ∧
    (¬ (pairOf resp).1 = none ↔ resp.status_code < 400) ∧
    (¬ resp.status_code = 200 →
      handleSingleResponse resp = SingleOutcome.apiError resp.status_code resp.text) := by
  refine ⟨?_, ?_, ?_⟩
  · constructor
    · intro h
      by_contra hne
      rw [handleSingleResponse, if_neg hne] at h
      cases h
    · intro h
      rw [handleSingleResponse, if_pos h]
  · rw [pairOf_fst_none]
    unfold Response.ok
    cases Nat.decLt resp.status_code 400 with
    | isTrue h => simp [h]
    | isFalse h => simp [h]
  · intro h
    rw [handleSingleResponse, if_neg h]

/-- C4 counterexample: a 201 response is a 2xx success status, yet the
single-prediction page renders it as an API error; a 301 response is
not a 2xx status, yet the batch loop records it as a present result. -/
theorem C4_counterexample_201_301 :
    is2xx resp201.status_code = true ∧
    handleSingleResponse resp201 = SingleOutcome.apiError 201 "created" ∧
    is2xx resp301.status_code = false ∧
    resp301.ok = true ∧
    pairOf resp301 = (some false, some 0) := by
  exact ⟨rfl, by decide, rfl, rfl, by decide⟩

/-- C5: on a table whose Prediction column is `[1, 1, 0, 1]`, the
visual-analytics aggregation yields a continue share of 3/4 — displayed
as 75% — and segment counts Continue = 3, Stop = 1. -/
theorem C5_summary_of_sample_table :
    summarize analyticsDf =
      Except.ok { continue_share := some (3 / 4), continueCount := 3, stopCount := 1 } ∧
    displayedPct { continue_share := some (3 / 4), continueCount := 3, stopCount := 1 } =
      some 75 := by
  have hv : numericValues (columnCells analyticsDf "Prediction") = [1, 1, 0, 1] := by decide
  constructor
  · have hmean : seriesMean (columnCells analyticsDf "Prediction") = some (3 / 4) := by
      simp only [seriesMean, hv]
      norm_num
    have hcont : (numericValues (columnCells analyticsDf "Prediction")).count 1 = 3 := by
      rw [hv]
      rfl
    have hstop : (numericValues (columnCells analyticsDf "Prediction")).count 0 = 1 := by
      rw [hv]
      rfl
    unfold summarize
    rw [if_pos (by decide)]
    rw [hmean, hcont, hstop]
  · simp only [displayedPct, Option.map_some]
    norm_num

/-- C6: the visual-analytics page fails with its schema error — and
computes no aggregate — exactly when the uploaded table lacks the
Prediction column or the Probability column; with both present a
summary is produced. -/
theorem C6_schema_error_iff_column_missing (df : DataFrame) :
    (summarize df = Except.error SchemaError.missingColumns ↔
      ¬ ("Prediction" ∈ df.header ∧ "Probability" ∈ df.header)) ∧
    ("Prediction" ∈ df.header ∧ "Probability" ∈ df.header →
      ∃ s, summarize df = Except.ok s) := by
  have hcond : ((df.header.contains "Prediction" && df.header.contains "Probability") = true) ↔
      ("Prediction" ∈ df.header ∧ "Probability" ∈ df.header) := by
    rw [Bool.and_eq_true]
    exact and_congr List.elem_iff List.elem_iff
  unfold summarize
  by_cases hp : "Prediction" ∈ df.header ∧ "Probability" ∈ df.header
  · rw [if_pos (hcond.mpr hp)]
    exact ⟨by simp [hp], fun _ => ⟨_, rfl⟩⟩
  · rw [if_neg fun hc => hp (hcond.mp hc)]
    exact ⟨by simp [hp], fun hc => absurd hc hp⟩

/-- C7: the export / re-upload round trip is the identity on scored
tables: writing a table with its appended Prediction and Probability
columns and parsing the result back reproduces the same header and, for
every cell (the non-absent ones in particular), the same value in the
same row position. -/
theorem C7_export_parse_round_trip (df : DataFrame) :
    parseTable (exportTable df) = df ∧
    ∀ i j, ((parseTable (exportTable df)).rows.get? i).bind (fun r => r.get? j) =
      (df.rows.get? i).bind fun r => r.get? j := by
  have hcell : cellFromExcel ∘ cellToExcel = id := by
    funext c
    rcases c with _ | c
    · rfl
    · rcases c with q | s | b <;> rfl
  have h : parseTable (exportTable df) = df := by
    rcases df with ⟨header, rows⟩
    unfold exportTable parseTable
    rw [DataFrame.mk.injEq]
    constructor
    · rw [List.map_map]
      have hid : ((fun c => match c with | ExcelCell.text s => s | _ => "") ∘
          ExcelCell.text) = fun s : String => s := rfl
      rw [hid, List.map_id']
    · rw [List.map_map]
      have hid : ((fun r : List ExcelCell => List.map cellFromExcel r) ∘
          fun r : List (Option Cell) => List.map cellToExcel r) =
            fun r : List (Option Cell) => r := by
        funext r
        show List.map cellFromExcel (List.map cellToExcel r) = r
        rw [List.map_map, hcell, List.map_id]
      rw [hid, List.map_id']
  exact ⟨h, fun i j => by rw [h]⟩

/-- C8 (amended): the single-prediction payload carries exactly the
nine required keys, but the batch payload is `row.to_dict()`: its keys
are exactly the uploaded file's column names, whatever those are. -/
theorem C8_payload_keys (s : SingleInputs) (header : List String) (row : List (Option Cell))
    (h : row.length = header.length) :
    (singlePayload s).map Prod.fst = requiredColumns ∧
    (payloadOf header row).map Prod.fst = header := by
  refine ⟨rfl, ?_⟩
  unfold payloadOf
  exact List.map_fst_zip header row (le_of_eq h.symm)

/-- C8 witness: for the default form inputs and a nine-column row, the
single payload keys are the nine required columns and the batch payload
keys are the file's columns. -/
theorem C8_payload_keys_witness :
    (sampleRow 1).length = twoRowDf.header.length ∧
    ((singlePayload defaultInputs).map Prod.fst = requiredColumns ∧
      (payloadOf twoRowDf.header (sampleRow 1)).map Prod.fst = twoRowDf.header) :=
  ⟨by decide, C8_payload_keys defaultInputs twoRowDf.header (sampleRow 1) (by decide)⟩

/-- C8 counterexample: for an upload with a tenth column `extra_note`,
the batch payload for a row carries that tenth key — the request body
is not limited to the nine CustomerRecord keys. -/
theorem C8_extra_column_sent :
    (payloadOf tenColumnHeader tenColumnRow).map Prod.fst = tenColumnHeader ∧
    ¬ (payloadOf tenColumnHeader tenColumnRow).map Prod.fst = requiredColumns ∧
    "extra_note" ∈ (payloadOf tenColumnHeader tenColumnRow).map Prod.fst := by
  exact ⟨by decide, by decide, by decide⟩

/-- C9: the form accepts discount_behavior 0 and 1, rejects any
discount_behavior outside [0, 1] (1.01 in particular) with an
out-of-range error naming the field, and likewise rejects a negative
numeric field — the value is refused, not clamped or submitted. -/
theorem C9_discount_behavior_bounds (x t : ℚ) (hx : x < 0 ∨ 1 < x) (ht : t < 0) :
    validateSingleInputs (withDiscount 0) = Except.ok (withDiscount 0) ∧
    validateSingleInputs (withDiscount 1) = Except.ok (withDiscount 1) ∧
    validateSingleInputs (withDiscount x) =
      Except.error (ValidationError.outOfRange "discount_behavior") ∧
    validateSingleInputs (withTotalSpent t) =
      Except.error (ValidationError.outOfRange "total_spent") := by
  refine ⟨by decide, by decide, ?_, ?_⟩
  · show validateSingleInputs
        { total_spent := 0, avg_order_value := 0, avg_purchase_frequency := 0,
          days_since_last_purchase := 30, discount_behavior := x,
          loyalty_program_member := 0, days_in_advance := 14,
          flight_type := "domestic", cabin_class := "economy" } = _
    rw [validateSingleInputs]
    rw [if_neg (by norm_num), if_neg (by norm_num), if_neg (by norm_num),
        if_neg (by norm_num), if_pos hx]
  · show validateSingleInputs
        { total_spent := t, avg_order_value := 0, avg_purchase_frequency := 0,
          days_since_last_purchase := 30, discount_behavior := 1 / 5,
          loyalty_program_member := 0, days_in_advance := 14,
          flight_type := "domestic", cabin_class := "economy" } = _
    rw [validateSingleInputs]
    rw [if_pos ht]

/-- C9 witness: 1.01 is rejected as discount_behavior and -1 is
rejected as total_spent, while 0 and 1 are accepted. -/
theorem C9_discount_behavior_witness :
    ((101 : ℚ) / 100 < 0 ∨ 1 < (101 : ℚ) / 100) ∧ (-1 : ℚ) < 0 ∧
    (validateSingleInputs (withDiscount 0) = Except.ok (withDiscount 0) ∧
      validateSingleInputs (withDiscount 1) = Except.ok (withDiscount 1) ∧
      validateSingleInputs (withDiscount (101 / 100)) =
        Except.error (ValidationError.outOfRange "discount_behavior") ∧
      validateSingleInputs (withTotalSpent (-1)) =
        Except.error (ValidationError.outOfRange "total_spent")) :=
  ⟨by norm_num, by norm_num,
    C9_discount_behavior_bounds (101 / 100) (-1) (by norm_num) (by norm_num)⟩

/-- C10: an absent prediction contributes to no aggregate: appending a
row whose Prediction cell is absent leaves the whole summary unchanged
— the continue share (numerator and denominator) and both segment
counts are computed over the non-absent predictions only, so an absent
result is never counted as Stop. -/
theorem C10_absent_predictions_excluded (df : DataFrame) (row : List (Option Cell))
    (h : columnCells (appendRow df row) "Prediction" =
      columnCells df "Prediction" ++ [none]) :
    summarize (appendRow df row) = summarize df := by
  have hhead : (appendRow df row).header = df.header := rfl
  have hnum : numericValues (columnCells (appendRow df row) "Prediction") =
      numericValues (columnCells df "Prediction") := by
    rw [h]
    unfold numericValues
    simp
  have hmean : seriesMean (columnCells (appendRow df row) "Prediction") =
      seriesMean (columnCells df "Prediction") := by
    unfold seriesMean
    rw [hnum]
  unfold summarize
  rw [hhead, hnum, hmean]

/-- C10 witness: appending an all-absent row to the sample scored table
leaves the summary unchanged. -/
theorem C10_absent_predictions_witness :
    summarize (appendRow analyticsDf [none, none]) = summarize analyticsDf :=
  C10_absent_predictions_excluded analyticsDf [none, none] (by decide)

end PriceOpt
